import Mathlib

/-!
Shallow embedding of the workflow-to-row extraction core of
`src/src/App.jsx` (the functions `processWorkflow`, `makeRow`, the
`fieldLogic` template table, and the multi-document loop of
`handleFileUpload`), together with theorems settling the specification
claims about it.

Modelling conventions for the JavaScript source:
- JS arrays become `List`, absent (`undefined`) fields become `Option`.
- The dynamic shape of `parameter.data` is probed by the source with
  `Array.isArray(param.data)` and `Array.isArray(param.data?.choices)`;
  the three-way outcome is captured by the inductive `JData`.
- An element of a `data` array is either `null`/`undefined` (on which
  the source expression `d.name` throws a TypeError) or any other value,
  whose `name` field is a string or absent; captured by `JEntry`.
- A thrown exception is modelled by `Except.error` with the error text;
  `Array.prototype.join` renders `undefined` elements as the empty
  string, while template-literal interpolation renders the value
  `undefined` as the text "undefined"; both behaviours are modelled
  explicitly (`joinNames`, `jsToString`).
-/

namespace WFC

/-- One element of a `data` (or `data.choices`) array in the input JSON.
`jnull` is a `null`/`undefined` element: accessing `.name` on it throws.
`jval name?` is any other value with `name` field present or absent. -/
inductive JEntry where
  | jnull : JEntry
  | jval (name : Option String) : JEntry
deriving DecidableEq, Repr

/-- The shape of `parameter.data` as probed by the source:
`jarr es` when `Array.isArray(param.data)`,
`jchoices es` when `Array.isArray(param.data?.choices)`,
`jother` for everything else (absent, primitive, or object without a
`choices` array). -/
inductive JData where
  | jarr (entries : List JEntry) : JData
  | jchoices (entries : List JEntry) : JData
  | jother : JData
deriving DecidableEq, Repr

/-- The `show` object of a visibility rule (`rule.show`), holding the
optional `parameters` string list. -/
structure RuleShow where
  parameters : Option (List String)
deriving DecidableEq, Repr

/-- A visibility rule (`parameter.rules[i]`): optional `input` string
list and optional `show` object. The JS field `show` is named `show_`
because `show` is a Lean keyword. -/
structure Rule where
  input : Option (List String)
  show_ : Option RuleShow
deriving DecidableEq, Repr

/-- A parameter of the workflow document. -/
structure Param where
  label : String
  type : String
  mandatory : Bool
  verificationType : Option String
  data : JData
  rules : Option (List Rule)
deriving DecidableEq, Repr

/-- A task: `name` plus its `parameterRequests` (possibly absent). -/
structure Task where
  name : String
  parameterRequests : Option (List Param)
deriving DecidableEq, Repr

/-- A stage: `name` plus its `taskRequests` (possibly absent). -/
structure Stage where
  name : String
  taskRequests : Option (List Task)
deriving DecidableEq, Repr

/-- A workflow document: top-level `parameterRequests` and
`stageRequests` (each possibly absent). -/
structure Workflow where
  parameterRequests : Option (List Param)
  stageRequests : Option (List Stage)
deriving DecidableEq, Repr

/-- The flat output record built by `makeRow` (`src/src/App.jsx`
lines 98-119); field names transliterate the 15 JS keys in order. -/
structure Row where
  stageName : String
  activityName : String
  performer : String
  activityDescriptionInDetail : String
  validationsConditions : String
  instructionTitle : String
  fieldType : String
  activityParameterType : String
  configurationFeasibility : String
  configurationFeasibilityNotes : String
  configurationStatus : String
  verificationStatus : String
  testerComments : String
  verificationBStatus : String
  testerCommentsB : String
deriving DecidableEq, Repr

/-- Template-literal rendering of a possibly-`undefined` JS string:
`undefined` prints as the text "undefined". -/
def jsToString : Option String → String
  | some s => s
  | none => "undefined"

/-- The own property names of `Object.prototype`, inherited by the
`fieldLogic` object literal: a lookup `fieldLogic[param.type]` at one
of these keys yields the inherited member, not `undefined`. -/
def protoKeys : List String :=
  ["constructor", "hasOwnProperty", "isPrototypeOf", "propertyIsEnumerable",
   "toLocaleString", "toString", "valueOf", "__proto__", "__defineGetter__",
   "__defineSetter__", "__lookupGetter__", "__lookupSetter__"]

/-- The prototype-chain part of the lookup `fieldLogic[param.type]`:
at an inherited `Object.prototype` key the result is the inherited
member, recorded here directly as the string it coerces to in the
`desc` concatenation (`__proto__` is an accessor returning
`Object.prototype`, which stringifies to "[object Object]"; the others
are native functions, which stringify to the usual native-function
source text); any other key yields `none` (JS `undefined`). -/
def protoLookup (ty : String) : Option String :=
  if ty = "constructor" then some "function Object() \x7b [native code] \x7d"
  else if ty = "hasOwnProperty" then some "function hasOwnProperty() \x7b [native code] \x7d"
  else if ty = "isPrototypeOf" then some "function isPrototypeOf() \x7b [native code] \x7d"
  else if ty = "propertyIsEnumerable" then some "function propertyIsEnumerable() \x7b [native code] \x7d"
  else if ty = "toLocaleString" then some "function toLocaleString() \x7b [native code] \x7d"
  else if ty = "toString" then some "function toString() \x7b [native code] \x7d"
  else if ty = "valueOf" then some "function valueOf() \x7b [native code] \x7d"
  else if ty = "__proto__" then some "[object Object]"
  else if ty = "__defineGetter__" then some "function __defineGetter__() \x7b [native code] \x7d"
  else if ty = "__defineSetter__" then some "function __defineSetter__() \x7b [native code] \x7d"
  else if ty = "__lookupGetter__" then some "function __lookupGetter__() \x7b [native code] \x7d"
  else if ty = "__lookupSetter__" then some "function __lookupSetter__() \x7b [native code] \x7d"
  else none

/-- The `fieldLogic` template table of `makeRow` (lines 68-78): the JS
lookup `fieldLogic[param.type]` first finds the nine own keys, whose
templates have `param.label` interpolated, then walks the prototype
chain (`protoLookup`); only a key found nowhere yields `none`
(JS `undefined`). -/
def fieldLogic (label ty : String) : Option String :=
  if ty = "SINGLE_SELECT" then some ("Performer selects if " ++ label ++ ".")
  else if ty = "MULTISELECT" then some ("Performer selects one or more options for " ++ label ++ ".")
  else if ty = "CHECKLIST" then some ("Performer checks applicable items for " ++ label ++ ".")
  else if ty = "SINGLE_LINE" then some ("Performer enters " ++ label ++ ".")
  else if ty = "MULTI_LINE" then some ("Performer enters a detailed response for " ++ label ++ ".")
  else if ty = "FILE_UPLOAD" then some ("Performer uploads the required file(s) for " ++ label ++ ".")
  else if ty = "RESOURCE" then some ("Performer selects a resource for " ++ label ++ ".")
  else if ty = "DATE" then some ("Performer enters the date for " ++ label ++ ".")
  else if ty = "INSTRUCTION" then some ("Performer provides input for " ++ label ++ ".")
  else protoLookup ty

/-- The mapping step `entries.map (d => d.name)`: throws a TypeError at
the first `null`/`undefined` element, otherwise yields the list of
(possibly absent) `name` fields in order. -/
def entryNames : List JEntry → Except String (List (Option String))
  | [] => Except.ok []
  | JEntry.jnull :: _ =>
      Except.error "TypeError: Cannot read properties of null (reading name)"
  | JEntry.jval n :: rest =>
      Except.map (fun ns => n :: ns) (entryNames rest)

/-- `Array.prototype.join(sep)` on the mapped names: an absent name
(JS `undefined`) renders as the empty string. -/
def joinNames (sep : String) (ns : List (Option String)) : String :=
  String.intercalate sep (ns.map (fun n => n.getD ""))

/-- The options name list underlying the `options` string of `makeRow`
(lines 80-85): the mapped `name` fields of `param.data` when it is an
array, else of `param.data.choices` when that is an array, else the
empty list (producing the empty joined string). -/
def namesOf (p : Param) : Except String (List (Option String)) :=
  match p.data with
  | JData.jarr es => entryNames es
  | JData.jchoices es => entryNames es
  | JData.jother => Except.ok []

/-- The `options` string of `makeRow` (lines 80-85): the names joined
with a bullet separator. -/
def optionsOf (p : Param) : Except String String :=
  Except.map (joinNames " • ") (namesOf p)

/-- The `desc` string of `makeRow` (lines 87-89): the template lookup
result (text "undefined" on a missed lookup, by JS string coercion)
concatenated with the options suffix when the `options` string is
truthy (non-empty). -/
def descOf (p : Param) : Except String String :=
  Except.map (fun options =>
      jsToString (fieldLogic p.label p.type) ++
        (if options ≠ "" then " Available Options: • " ++ options else ""))
    (optionsOf p)

/-- The rendering of one visibility rule inside the `rules` string of
`makeRow` (lines 91-96); a missing `input` or `show.parameters`
interpolates the JS value `undefined` as the text "undefined". -/
def ruleText (label : String) (r : Rule) : String :=
  "Visible if [" ++ label ++ "] is [" ++
    jsToString (r.input.map (String.intercalate ", ")) ++
    "]. Shows parameters: [" ++
    jsToString ((r.show_.bind RuleShow.parameters).map (String.intercalate ", ")) ++
    "]"

/-- The `rules` string of `makeRow` (lines 91-96): each rule rendered
with the owning parameter label, joined with "; "; `param.rules || []`
defaults an absent list to the empty list. -/
def rulesOf (p : Param) : String :=
  String.intercalate "; " ((p.rules.getD []).map (ruleText p.label))

/-- The object literal returned by `makeRow` (lines 98-119), given the
already-computed `desc` string. -/
def makeRowFields (stage task : String) (param : Param) (desc : String) : Row :=
  { stageName := stage
    activityName := task
    performer := "Performer/Verifier"
    activityDescriptionInDetail := desc
    validationsConditions := rulesOf param
    instructionTitle := param.label
    fieldType := if param.mandatory then "Mandatory" else "Optional"
    activityParameterType := param.type
    configurationFeasibility := "Configurable"
    configurationFeasibilityNotes := "N/A"
    configurationStatus := "Configured"
    verificationStatus :=
      if param.verificationType = some "SELF" ∨ param.verificationType = some "BOTH"
      then "Enabled" else "Disabled"
    testerComments := "N/A"
    verificationBStatus :=
      if param.verificationType = some "BOTH" then "Enabled" else "Disabled"
    testerCommentsB := "N/A" }

/-- `makeRow` (lines 67-120): builds one output row; propagates the
TypeError thrown while computing the options string. -/
def makeRow (stage task : String) (param : Param) : Except String Row :=
  Except.map (makeRowFields stage task param) (descOf param)

/-- `forEach` with `push` of a fallible body over a JS array: collects
the produced values in order, stopping at the first thrown exception. -/
def traverseE {α β : Type} (f : α → Except String β) : List α → Except String (List β)
  | [] => Except.ok []
  | x :: xs =>
    Except.bind (f x) (fun y =>
      Except.map (fun ys => y :: ys) (traverseE f xs))

/-- `processWorkflow` (lines 51-65): pushes one row per top-level
parameter (guarded by `wf.parameterRequests?.length`), then one row per
parameter of each task of each stage, in order. -/
def processWorkflow (wf : Workflow) : Except String (List Row) :=
  Except.bind
    (if (wf.parameterRequests.getD []).length ≠ 0
     then traverseE (fun p => makeRow "Create Job Form" p.label p)
            (wf.parameterRequests.getD [])
     else Except.ok [])
    (fun topRows =>
      Except.map (fun nested => topRows ++ List.flatten nested)
        (traverseE (fun stage =>
          Except.map List.flatten
            (traverseE (fun task =>
              traverseE (fun param => makeRow stage.name task.name param)
                (task.parameterRequests.getD []))
              (stage.taskRequests.getD [])))
          (wf.stageRequests.getD [])))

/-- The multi-document loop of `handleFileUpload` (lines 40-42):
`jsonObjects.forEach((wf) => processWorkflow(wf, csvRows))` accumulates
all rows into one list; a thrown exception aborts the whole conversion
(the catch block discards the rows). -/
def processWorkflows (wfs : List Workflow) : Except String (List Row) :=
  Except.map List.flatten (traverseE processWorkflow wfs)

/-- The ordered sequence of `(stageLabel, taskLabel, parameter)` contexts
that the traversal visits: top-level job-form parameters first (stage
label "Create Job Form", task label the parameter label), then every
task parameter nested under its stage and task names. -/
def contextsSpec (wf : Workflow) : List (String × String × Param) :=
  (wf.parameterRequests.getD []).map (fun p => ("Create Job Form", p.label, p)) ++
  (wf.stageRequests.getD []).flatMap (fun stage =>
    (stage.taskRequests.getD []).flatMap (fun task =>
      (task.parameterRequests.getD []).map (fun param => (stage.name, task.name, param))))

/-- An entry on which `d.name` does not throw (it is not `null`). -/
def entryOk : JEntry → Bool
  | JEntry.jnull => false
  | JEntry.jval _ => true

/-- A `data` field whose option entries are all non-`null`. -/
def dataOk : JData → Bool
  | JData.jarr es => es.all entryOk
  | JData.jchoices es => es.all entryOk
  | JData.jother => true

/-- A parameter whose processing throws no exception. -/
def paramOk (p : Param) : Bool := dataOk p.data

/-- A workflow none of whose parameters throws. -/
def wfOk (wf : Workflow) : Bool :=
  (wf.parameterRequests.getD []).all paramOk &&
  (wf.stageRequests.getD []).all (fun stage =>
    (stage.taskRequests.getD []).all (fun task =>
      (task.parameterRequests.getD []).all paramOk))

/-- Sample parameter from the options-rendering test vector of the spec. -/
def pPriority : Param :=
  { label := "Priority", type := "SINGLE_SELECT", mandatory := true,
    verificationType := none,
    data := JData.jarr [JEntry.jval (some "Low"), JEntry.jval (some "High")],
    rules := none }

/-- Sample task holding the sample parameter. -/
def taskSample : Task :=
  { name := "Approve", parameterRequests := some [pPriority] }

/-- Sample stage holding the sample task. -/
def stageSample : Stage :=
  { name := "Review", taskRequests := some [taskSample] }

/-- Sample workflow: one job-form parameter plus one staged parameter. -/
def wfSample : Workflow :=
  { parameterRequests := some [pPriority],
    stageRequests := some [stageSample] }

/-- Parameter whose single option entry has an empty name. -/
def pEmptyName : Param :=
  { label := "X", type := "SINGLE_SELECT", mandatory := false,
    verificationType := none,
    data := JData.jarr [JEntry.jval (some "")], rules := none }

/-- Parameter whose single option entry has no `name` field at all. -/
def pMissingName : Param :=
  { label := "X", type := "SINGLE_SELECT", mandatory := false,
    verificationType := none,
    data := JData.jarr [JEntry.jval none], rules := none }

/-- Parameter whose type is the inherited property name "__proto__". -/
def pProto : Param :=
  { label := "X", type := "__proto__", mandatory := false,
    verificationType := none, data := JData.jother, rules := none }

/-- Parameter with one visibility rule missing both `input` and
`show.parameters`. -/
def pNoInput : Param :=
  { label := "Status", type := "SINGLE_LINE", mandatory := false,
    verificationType := none, data := JData.jother,
    rules := some [{ input := none, show_ := none }] }

/-- Parameter with two visibility rules, the second missing its fields. -/
def pTwoRules : Param :=
  { label := "Status", type := "SINGLE_LINE", mandatory := false,
    verificationType := none, data := JData.jother,
    rules := some
      [{ input := some ["Yes"], show_ := some { parameters := some ["Comment"] } },
       { input := none, show_ := none }] }

/-- Parameter with `verificationType` BOTH. -/
def pBoth : Param :=
  { label := "Status", type := "SINGLE_LINE", mandatory := false,
    verificationType := some "BOTH", data := JData.jother, rules := none }

/-- Parameter whose `data` array contains a `null` entry. -/
def pNullEntry : Param :=
  { label := "Broken", type := "SINGLE_SELECT", mandatory := false,
    verificationType := none, data := JData.jarr [JEntry.jnull], rules := none }

/-- Workflow holding the throwing parameter followed by a healthy one. -/
def wfNull : Workflow :=
  { parameterRequests := some [pNullEntry, pPriority], stageRequests := none }

/-- Parameter with an unrecognized type and no options. -/
def pUnknown : Param :=
  { label := "Priority", type := "WEIRD", mandatory := false,
    verificationType := none, data := JData.jother, rules := none }

/-- Parameter with an unrecognized type and two options. -/
def pUnknownOpts : Param :=
  { label := "Priority", type := "WEIRD", mandatory := false,
    verificationType := none,
    data := JData.jarr [JEntry.jval (some "Low"), JEntry.jval (some "High")],
    rules := none }

theorem traverseE_append {α β : Type} (f : α → Except String β) (xs ys : List α) :
    traverseE f (xs ++ ys) =
      Except.bind (traverseE f xs) (fun a =>
        Except.map (fun b => a ++ b) (traverseE f ys)) := by
  induction xs with
  | nil =>
      simp only [List.nil_append, traverseE, Except.bind]
      cases traverseE f ys <;> simp [Except.map]
  | cons x xs ih =>
      simp only [List.cons_append, traverseE, List.append_eq]
      rw [ih]
      cases f x with
      | error e => simp [Except.bind]
      | ok y =>
          cases h1 : traverseE f xs with
          | error e => simp [Except.bind, Except.map]
          | ok a =>
              cases h2 : traverseE f ys <;> simp [Except.bind, Except.map]

theorem traverseE_map {α β γ : Type} (f : β → Except String γ) (g : α → β)
    (xs : List α) :
    traverseE f (xs.map g) = traverseE (fun x => f (g x)) xs := by
  induction xs with
  | nil => rfl
  | cons x xs ih => simp only [List.map_cons, traverseE, ih]

theorem traverseE_congr {α β : Type} {f g : α → Except String β} {xs : List α}
    (h : ∀ x ∈ xs, f x = g x) : traverseE f xs = traverseE g xs := by
  induction xs with
  | nil => rfl
  | cons x xs ih =>
      simp only [traverseE, h x (List.mem_cons_self x xs),
        ih (fun y hy => h y (List.mem_cons_of_mem x hy))]

theorem traverseE_flatMap {α β γ : Type} (f : β → Except String γ)
    (h : α → List β) (xs : List α) :
    traverseE f (xs.flatMap h) =
      Except.map List.flatten (traverseE (fun x => traverseE f (h x)) xs) := by
  induction xs with
  | nil => rfl
  | cons x xs ih =>
      simp only [List.flatMap_cons, traverseE_append, ih, traverseE]
      cases traverseE f (h x) with
      | error e => simp [Except.bind, Except.map]
      | ok a =>
          cases traverseE (fun x => traverseE f (h x)) xs with
          | error e => simp [Except.bind, Except.map]
          | ok ls => simp [Except.bind, Except.map]

theorem traverseE_ok_length {α β : Type} {f : α → Except String β}
    {xs : List α} {ys : List β} (h : traverseE f xs = Except.ok ys) :
    ys.length = xs.length := by
  induction xs generalizing ys with
  | nil =>
      simp only [traverseE] at h
      cases h
      rfl
  | cons x xs ih =>
      simp only [traverseE] at h
      cases hx : f x with
      | error e => rw [hx] at h; simp [Except.bind] at h
      | ok y =>
          rw [hx] at h
          cases ht : traverseE f xs with
          | error e => rw [ht] at h; simp [Except.bind, Except.map] at h
          | ok ys0 =>
              rw [ht] at h
              simp only [Except.bind, Except.map] at h
              cases h
              simp [ih ht]

theorem traverseE_ok_of_all {α β : Type} {f : α → Except String β}
    {xs : List α} (h : ∀ x ∈ xs, ∃ y, f x = Except.ok y) :
    ∃ ys, traverseE f xs = Except.ok ys := by
  induction xs with
  | nil => exact ⟨[], rfl⟩
  | cons x xs ih =>
      obtain ⟨y, hy⟩ := h x (List.mem_cons_self x xs)
      obtain ⟨ys, hys⟩ := ih (fun z hz => h z (List.mem_cons_of_mem x hz))
      exact ⟨y :: ys, by simp [traverseE, hy, hys, Except.bind, Except.map]⟩

/-- The traversal of one workflow is exactly the rowification of its
ordered context sequence. -/
theorem processWorkflow_eq (wf : Workflow) :
    processWorkflow wf =
      traverseE (fun c => makeRow c.1 c.2.1 c.2.2) (contextsSpec wf) := by
  unfold processWorkflow contextsSpec
  rw [traverseE_append, traverseE_map]
  have htop :
      (if (wf.parameterRequests.getD []).length ≠ 0
       then traverseE (fun p => makeRow "Create Job Form" p.label p)
              (wf.parameterRequests.getD [])
       else Except.ok []) =
      traverseE (fun p => makeRow "Create Job Form" p.label p)
        (wf.parameterRequests.getD []) := by
    cases wf.parameterRequests.getD [] with
    | nil => simp [traverseE]
    | cons p ps => simp
  rw [htop]
  have hnested :
      traverseE (fun c : String × String × Param => makeRow c.1 c.2.1 c.2.2)
        ((wf.stageRequests.getD []).flatMap (fun stage =>
          (stage.taskRequests.getD []).flatMap (fun task =>
            (task.parameterRequests.getD []).map
              (fun param => (stage.name, task.name, param))))) =
      Except.map List.flatten
        (traverseE (fun stage =>
          Except.map List.flatten
            (traverseE (fun task =>
              traverseE (fun param => makeRow stage.name task.name param)
                (task.parameterRequests.getD []))
              (stage.taskRequests.getD [])))
          (wf.stageRequests.getD [])) := by
    rw [traverseE_flatMap]
    congr 1
    apply traverseE_congr
    intro stage _
    rw [traverseE_flatMap]
    congr 1
    apply traverseE_congr
    intro task _
    rw [traverseE_map]
  rw [hnested]
  cases traverseE (fun p => makeRow "Create Job Form" p.label p)
      (wf.parameterRequests.getD []) with
  | error e => simp [Except.bind]
  | ok topRows =>
      cases traverseE (fun stage =>
          Except.map List.flatten
            (traverseE (fun task =>
              traverseE (fun param => makeRow stage.name task.name param)
                (task.parameterRequests.getD []))
              (stage.taskRequests.getD [])))
          (wf.stageRequests.getD []) <;>
        simp [Except.bind, Except.map]

theorem length_flatMap {α β : Type} (f : α → List β) (xs : List α) :
    (xs.flatMap f).length = (xs.map (fun x => (f x).length)).sum := by
  induction xs with
  | nil => rfl
  | cons x xs ih => simp [List.flatMap_cons, ih]

/-- A successful `makeRow` returns the row literal built from the
computed description. -/
theorem makeRow_ok {stage task : String} {p : Param} {row : Row}
    (h : makeRow stage task p = Except.ok row) :
    ∃ desc, descOf p = Except.ok desc ∧ row = makeRowFields stage task p desc := by
  unfold makeRow at h
  cases hd : descOf p with
  | error e => rw [hd] at h; simp [Except.map] at h
  | ok d =>
      rw [hd] at h
      simp only [Except.map] at h
      cases h
      exact ⟨d, rfl, rfl⟩

theorem entryNames_ok {es : List JEntry} (h : es.all entryOk = true) :
    ∃ ns, entryNames es = Except.ok ns := by
  induction es with
  | nil => exact ⟨[], rfl⟩
  | cons e es ih =>
      simp only [List.all_cons, Bool.and_eq_true] at h
      obtain ⟨ns, hns⟩ := ih h.2
      cases e with
      | jnull => simp [entryOk] at h
      | jval n => exact ⟨n :: ns, by simp [entryNames, hns, Except.map]⟩

theorem makeRow_ok_of_paramOk {p : Param} (h : paramOk p = true)
    (stage task : String) : ∃ row, makeRow stage task p = Except.ok row := by
  have hno : ∃ ns, namesOf p = Except.ok ns := by
    unfold paramOk at h
    unfold namesOf
    cases hd : p.data with
    | jarr es => rw [hd] at h; exact entryNames_ok (by simpa [dataOk] using h)
    | jchoices es => rw [hd] at h; exact entryNames_ok (by simpa [dataOk] using h)
    | jother => exact ⟨[], rfl⟩
  obtain ⟨ns, hns⟩ := hno
  refine ⟨makeRowFields stage task p
    (jsToString (fieldLogic p.label p.type) ++
      (if joinNames " • " ns ≠ "" then " Available Options: • " ++ joinNames " • " ns
       else "")), ?_⟩
  simp [makeRow, descOf, optionsOf, hns, Except.map]

theorem processWorkflow_ok_of_wfOk {wf : Workflow} (h : wfOk wf = true) :
    ∃ rows, processWorkflow wf = Except.ok rows := by
  unfold wfOk at h
  simp only [Bool.and_eq_true, List.all_eq_true] at h
  obtain ⟨htop, hst⟩ := h
  rw [processWorkflow_eq]
  apply traverseE_ok_of_all
  intro c hc
  unfold contextsSpec at hc
  rw [List.mem_append] at hc
  cases hc with
  | inl hc =>
      rw [List.mem_map] at hc
      obtain ⟨p, hp, rfl⟩ := hc
      exact makeRow_ok_of_paramOk (htop p hp) _ _
  | inr hc =>
      rw [List.mem_flatMap] at hc
      obtain ⟨stage, hstage, hc⟩ := hc
      rw [List.mem_flatMap] at hc
      obtain ⟨task, htask, hc⟩ := hc
      rw [List.mem_map] at hc
      obtain ⟨p, hp, rfl⟩ := hc
      exact makeRow_ok_of_paramOk (hst stage hstage task htask p hp) _ _

/-- Claim C1: for every input workflow, the number of output rows
produced equals the number of top-level `parameterRequests` parameters
plus the sum, over every stage and every task, of the number of that
task's parameters; absent or empty arrays contribute zero rows. -/
theorem claim_C1 (wf : Workflow) (rows : List Row)
    (h : processWorkflow wf = Except.ok rows) :
    rows.length =
      (wf.parameterRequests.getD []).length +
        ((wf.stageRequests.getD []).map (fun stage =>
          ((stage.taskRequests.getD []).map (fun task =>
            (task.parameterRequests.getD []).length)).sum)).sum := by
  rw [processWorkflow_eq] at h
  rw [traverseE_ok_length h]
  simp only [contextsSpec, List.length_append, List.length_map, length_flatMap]

/-- Witness for C1 at the sample workflow: one job-form parameter and
one staged parameter give exactly two rows. -/
theorem claim_C1_witness :
    ([makeRowFields "Create Job Form" "Priority" pPriority
        "Performer selects if Priority. Available Options: • Low • High",
      makeRowFields "Review" "Approve" pPriority
        "Performer selects if Priority. Available Options: • Low • High"]).length =
      (wfSample.parameterRequests.getD []).length +
        ((wfSample.stageRequests.getD []).map (fun stage =>
          ((stage.taskRequests.getD []).map (fun task =>
            (task.parameterRequests.getD []).length)).sum)).sum :=
  claim_C1 wfSample _ rfl

/-- Claim C2: the rows are emitted in exactly the claimed order — the
traversal equals rowification of the ordered context sequence
(top-level parameters first with stage label "Create Job Form" and task
label the parameter label, then stage-name/task-name contexts), and
every produced row carries its context's stage label as Stage Name and
task label as Activity Name. -/
theorem claim_C2 (wf : Workflow) :
    processWorkflow wf =
      traverseE (fun c => makeRow c.1 c.2.1 c.2.2) (contextsSpec wf) ∧
    (∀ (stage task : String) (p : Param) (row : Row),
      makeRow stage task p = Except.ok row →
      row.stageName = stage ∧ row.activityName = task) := by
  refine ⟨processWorkflow_eq wf, ?_⟩
  intro stage task p row h
  obtain ⟨d, _, rfl⟩ := makeRow_ok h
  exact ⟨rfl, rfl⟩

/-- Witness for C2: the staged sample parameter's row carries stage
"Review" and activity "Approve". -/
theorem claim_C2_witness :
    (makeRowFields "Review" "Approve" pPriority
      "Performer selects if Priority. Available Options: • Low • High").stageName = "Review" ∧
    (makeRowFields "Review" "Approve" pPriority
      "Performer selects if Priority. Available Options: • Low • High").activityName = "Approve" :=
  (claim_C2 wfSample).2 "Review" "Approve" pPriority _ rfl

/-- Claim C3: each of the nine recognized types maps to its fixed
template with the label substituted; for a recognized type the
description is the template followed by the options suffix computed
from the options string; and the SINGLE_SELECT Priority example yields
exactly the claimed description. -/
theorem claim_C3 :
    (∀ l : String,
      fieldLogic l "SINGLE_SELECT" = some ("Performer selects if " ++ l ++ ".") ∧
      fieldLogic l "MULTISELECT" = some ("Performer selects one or more options for " ++ l ++ ".") ∧
      fieldLogic l "CHECKLIST" = some ("Performer checks applicable items for " ++ l ++ ".") ∧
      fieldLogic l "SINGLE_LINE" = some ("Performer enters " ++ l ++ ".") ∧
      fieldLogic l "MULTI_LINE" = some ("Performer enters a detailed response for " ++ l ++ ".") ∧
      fieldLogic l "FILE_UPLOAD" = some ("Performer uploads the required file(s) for " ++ l ++ ".") ∧
      fieldLogic l "RESOURCE" = some ("Performer selects a resource for " ++ l ++ ".") ∧
      fieldLogic l "DATE" = some ("Performer enters the date for " ++ l ++ ".") ∧
      fieldLogic l "INSTRUCTION" = some ("Performer provides input for " ++ l ++ ".")) ∧
    (∀ (p : Param) (tmpl s : String),
      fieldLogic p.label p.type = some tmpl →
      optionsOf p = Except.ok s →
      descOf p = Except.ok (tmpl ++
        (if s ≠ "" then " Available Options: • " ++ s else ""))) ∧
    descOf pPriority =
      Except.ok "Performer selects if Priority. Available Options: • Low • High" := by
  refine ⟨?_, ?_, rfl⟩
  · intro l
    exact ⟨rfl, rfl, rfl, rfl, rfl, rfl, rfl, rfl, rfl⟩
  · intro p tmpl s h1 h2
    unfold descOf
    rw [h2]
    simp [Except.map, h1, jsToString]

/-- Witness for C3 at the Priority example parameter. -/
theorem claim_C3_witness :
    descOf pPriority = Except.ok ("Performer selects if Priority." ++
      (if ("Low • High" : String) ≠ ""
       then " Available Options: • " ++ "Low • High" else "")) :=
  claim_C3.2.1 pPriority "Performer selects if Priority." "Low • High" rfl rfl

/-- Claim C4 counterexample: a singleton options list whose only name
is the empty string is non-empty, yet the description gets no
" Available Options: • " suffix, because the source tests the joined
string, not the list. -/
theorem claim_C4_counterexample :
    namesOf pEmptyName = Except.ok [some ""] ∧
    (some "" :: ([] : List (Option String))) ≠ [] ∧
    descOf pEmptyName = Except.ok "Performer selects if X." ∧
    ("Performer selects if X." : String) ≠
      "Performer selects if X." ++ " Available Options: • " := by
  refine ⟨rfl, by simp, rfl, by decide⟩

/-- Claim C4 (amended): the options list is the name fields of
`parameter.data` when that is an array, else of `parameter.data.choices`
when that is an array, else empty (no error for other shapes); the
suffix is appended if and only if the joined options string is
non-empty — a non-empty list whose joined string is empty (a single
empty or missing name) yields no suffix. -/
theorem claim_C4 (p : Param) (ns : List (Option String))
    (h : namesOf p = Except.ok ns) :
    (∀ es, p.data = JData.jarr es → entryNames es = Except.ok ns) ∧
    (∀ es, p.data = JData.jchoices es → entryNames es = Except.ok ns) ∧
    (p.data = JData.jother → ns = []) ∧
    optionsOf p = Except.ok (joinNames " • " ns) ∧
    descOf p = Except.ok (jsToString (fieldLogic p.label p.type) ++
      (if joinNames " • " ns ≠ ""
       then " Available Options: • " ++ joinNames " • " ns else "")) ∧
    joinNames " • " [(none : Option String)] = "" ∧
    descOf pMissingName = Except.ok "Performer selects if X." := by
  refine ⟨?_, ?_, ?_, ?_, ?_, rfl, rfl⟩
  · intro es he
    have : namesOf p = entryNames es := by unfold namesOf; rw [he]
    rw [this] at h; exact h
  · intro es he
    have : namesOf p = entryNames es := by unfold namesOf; rw [he]
    rw [this] at h; exact h
  · intro he
    have : namesOf p = Except.ok [] := by unfold namesOf; rw [he]
    rw [this] at h; cases h; rfl
  · unfold optionsOf; rw [h]; rfl
  · unfold descOf optionsOf; rw [h]; rfl

/-- Witness for C4 at the Priority example parameter. -/
theorem claim_C4_witness :
    optionsOf pPriority =
      Except.ok (joinNames " • " [some "Low", some "High"]) :=
  (claim_C4 pPriority [some "Low", some "High"] rfl).2.2.2.1

/-- Claim C5 counterexample: a rule with missing `input` and missing
`show.parameters` renders the text "undefined" inside the brackets,
not an empty list as claimed. -/
theorem claim_C5_counterexample :
    rulesOf pNoInput =
      "Visible if [Status] is [undefined]. Shows parameters: [undefined]" ∧
    rulesOf pNoInput ≠
      "Visible if [Status] is []. Shows parameters: []" := by
  refine ⟨rfl, by decide⟩

/-- Claim C5 (amended): each rule renders
"Visible if [label] is [input joined by comma-space]. Shows parameters:
[show.parameters joined by comma-space]" with the owning parameter's
label, rules are joined with "; "; but a missing `input` or
`show.parameters` renders as the literal text "undefined" inside its
brackets (the JS stringification of `undefined`), not as an empty
list. -/
theorem claim_C5 (label : String) (inp ps : List String) :
    ruleText label { input := some inp, show_ := some { parameters := some ps } } =
      "Visible if [" ++ label ++ "] is [" ++ String.intercalate ", " inp ++
        "]. Shows parameters: [" ++ String.intercalate ", " ps ++ "]" ∧
    ruleText label { input := none, show_ := none } =
      "Visible if [" ++ label ++ "] is [" ++ "undefined" ++
        "]. Shows parameters: [" ++ "undefined" ++ "]" ∧
    ruleText label { input := some inp, show_ := some { parameters := none } } =
      "Visible if [" ++ label ++ "] is [" ++ String.intercalate ", " inp ++
        "]. Shows parameters: [" ++ "undefined" ++ "]" ∧
    rulesOf pTwoRules =
      "Visible if [Status] is [Yes]. Shows parameters: [Comment]; Visible if [Status] is [undefined]. Shows parameters: [undefined]" ∧
    rulesOf pNoInput =
      "Visible if [Status] is [undefined]. Shows parameters: [undefined]" :=
  ⟨rfl, rfl, rfl, rfl, rfl⟩

/-- Claim C6: Verification Status is "Enabled" exactly for
verificationType SELF or BOTH, Verification B Status is "Enabled"
exactly for BOTH, both "Disabled" otherwise (including absent). -/
theorem claim_C6 (stage task : String) (p : Param) (row : Row)
    (h : makeRow stage task p = Except.ok row) :
    (p.verificationType = some "SELF" ∨ p.verificationType = some "BOTH" →
      row.verificationStatus = "Enabled") ∧
    (¬(p.verificationType = some "SELF" ∨ p.verificationType = some "BOTH") →
      row.verificationStatus = "Disabled") ∧
    (p.verificationType = some "BOTH" → row.verificationBStatus = "Enabled") ∧
    (p.verificationType ≠ some "BOTH" → row.verificationBStatus = "Disabled") := by
  obtain ⟨d, _, rfl⟩ := makeRow_ok h
  refine ⟨?_, ?_, ?_, ?_⟩ <;> intro h1
  · simp [makeRowFields, if_pos h1]
  · simp [makeRowFields, if_neg h1]
  · simp [makeRowFields, h1]
  · simp [makeRowFields, if_neg h1]

/-- Witness for C6 at a parameter with verificationType BOTH. -/
theorem claim_C6_witness :
    (makeRowFields "S" "T" pBoth "Performer enters Status.").verificationStatus =
      "Enabled" ∧
    (makeRowFields "S" "T" pBoth "Performer enters Status.").verificationBStatus =
      "Enabled" :=
  ⟨(claim_C6 "S" "T" pBoth _ rfl).1 (Or.inr rfl),
   (claim_C6 "S" "T" pBoth _ rfl).2.2.1 rfl⟩

/-- Claim C7: a parameter with no `rules` key and one with an empty
`rules` list produce identical rows, and the Validations / Conditions
field of such a row is the empty string. -/
theorem claim_C7 (stage task : String) (p : Param) :
    makeRow stage task { p with rules := none } =
      makeRow stage task { p with rules := some [] } ∧
    (∀ row, makeRow stage task { p with rules := none } = Except.ok row →
      row.validationsConditions = "") := by
  constructor
  · unfold makeRow
    have hd : descOf { p with rules := none } =
        descOf { p with rules := some [] } := rfl
    rw [hd]
    cases descOf { p with rules := some [] } with
    | error e => rfl
    | ok d => rfl
  · intro row h
    obtain ⟨d, _, rfl⟩ := makeRow_ok h
    rfl

/-- Witness for C7 at the Priority example parameter. -/
theorem claim_C7_witness :
    makeRow "S" "T" { pPriority with rules := none } =
      makeRow "S" "T" { pPriority with rules := some [] } ∧
    (makeRowFields "S" "T" { pPriority with rules := none }
      "Performer selects if Priority. Available Options: • Low • High").validationsConditions = "" :=
  ⟨(claim_C7 "S" "T" pPriority).1,
   (claim_C7 "S" "T" pPriority).2 _ rfl⟩

/-- Claim C8 counterexample: a workflow whose first parameter has a
`null` entry in its `data` array makes the whole conversion throw a
TypeError; no rows are produced, including for the following
well-formed parameter. -/
theorem claim_C8_counterexample :
    processWorkflows [wfNull] =
      Except.error "TypeError: Cannot read properties of null (reading name)" := rfl

/-- Claim C8 (amended): the traversal raises no error as long as no
`data` (or `data.choices`) array contains a `null`/`undefined` entry —
absent or empty arrays and missing fields all default benignly — but a
single such `null` entry throws a TypeError that aborts the entire
conversion, so a malformed parameter is not skipped. -/
theorem claim_C8 (wfs : List Workflow) (h : ∀ wf ∈ wfs, wfOk wf = true) :
    ∃ rows, processWorkflows wfs = Except.ok rows := by
  unfold processWorkflows
  obtain ⟨rss, hrss⟩ :=
    traverseE_ok_of_all
      (fun wf hwf => processWorkflow_ok_of_wfOk (h wf hwf))
  exact ⟨rss.flatten, by rw [hrss]; rfl⟩

/-- Witness for C8 at the sample workflow list. -/
theorem claim_C8_witness :
    ∃ rows, processWorkflows [wfSample] = Except.ok rows :=
  claim_C8 [wfSample] (by decide)

/-- Claim C9: processing a sequence of workflow documents is a
concatenation homomorphism — the rows of `as ++ bs` are the rows of
`as` followed by the rows of `bs` (with errors propagating in input
order). -/
theorem claim_C9 (as bs : List Workflow) :
    processWorkflows (as ++ bs) =
      Except.bind (processWorkflows as) (fun ra =>
        Except.map (fun rb => ra ++ rb) (processWorkflows bs)) := by
  unfold processWorkflows
  rw [traverseE_append]
  cases traverseE processWorkflow as <;>
    cases traverseE processWorkflow bs <;>
    simp [Except.bind, Except.map, List.flatten_append]

/-- Claim C10 counterexample: the type "__proto__" is not one of the
nine recognized template keys, yet its description (with empty
options) is "[object Object]" — the stringification of the inherited
`Object.prototype` member found by the prototype-chain lookup — and
not the claimed "undefined". -/
theorem claim_C10_counterexample :
    ("__proto__" : String) ∉
      ["SINGLE_SELECT", "MULTISELECT", "CHECKLIST", "SINGLE_LINE",
       "MULTI_LINE", "FILE_UPLOAD", "RESOURCE", "DATE", "INSTRUCTION"] ∧
    descOf pProto = Except.ok "[object Object]" ∧
    ("[object Object]" : String) ≠ "undefined" := by
  refine ⟨by decide, rfl, by decide⟩

/-- Claim C10 (amended): the template lookup misses — and the
description begins with the literal text "undefined", exactly
"undefined" when the options string is empty — precisely for parameter
types that are neither one of the nine recognized template keys nor an
inherited `Object.prototype` property name; for an inherited name the
lookup finds the inherited member and the description begins with its
stringification instead. -/
theorem claim_C10 :
    (∀ l ty : String, fieldLogic l ty = none ↔
      (ty ∉ ["SINGLE_SELECT", "MULTISELECT", "CHECKLIST", "SINGLE_LINE",
             "MULTI_LINE", "FILE_UPLOAD", "RESOURCE", "DATE", "INSTRUCTION"] ∧
       ty ∉ protoKeys)) ∧
    (∀ (p : Param) (s : String),
      fieldLogic p.label p.type = none →
      optionsOf p = Except.ok s →
      descOf p = Except.ok ("undefined" ++
        (if s ≠ "" then " Available Options: • " ++ s else ""))) ∧
    descOf pUnknown = Except.ok "undefined" ∧
    descOf pProto = Except.ok "[object Object]" := by
  refine ⟨?_, ?_, rfl, rfl⟩
  · intro l ty
    by_cases hn : ty ∈ ["SINGLE_SELECT", "MULTISELECT", "CHECKLIST",
      "SINGLE_LINE", "MULTI_LINE", "FILE_UPLOAD", "RESOURCE", "DATE",
      "INSTRUCTION"]
    · refine iff_of_false ?_ (fun hc => hc.1 hn)
      simp only [List.mem_cons, List.not_mem_nil, or_false] at hn
      rcases hn with rfl | rfl | rfl | rfl | rfl | rfl | rfl | rfl | rfl <;>
        exact fun h => Option.noConfusion h
    · by_cases hp : ty ∈ protoKeys
      · refine iff_of_false ?_ (fun hc => hc.2 hp)
        simp only [protoKeys, List.mem_cons, List.not_mem_nil, or_false] at hp
        rcases hp with rfl | rfl | rfl | rfl | rfl | rfl | rfl | rfl | rfl |
          rfl | rfl | rfl <;>
          exact fun h => Option.noConfusion h
      · refine iff_of_true ?_ ⟨hn, hp⟩
        have e1 : ty ≠ "SINGLE_SELECT" := fun e => hn (by rw [e]; decide)
        have e2 : ty ≠ "MULTISELECT" := fun e => hn (by rw [e]; decide)
        have e3 : ty ≠ "CHECKLIST" := fun e => hn (by rw [e]; decide)
        have e4 : ty ≠ "SINGLE_LINE" := fun e => hn (by rw [e]; decide)
        have e5 : ty ≠ "MULTI_LINE" := fun e => hn (by rw [e]; decide)
        have e6 : ty ≠ "FILE_UPLOAD" := fun e => hn (by rw [e]; decide)
        have e7 : ty ≠ "RESOURCE" := fun e => hn (by rw [e]; decide)
        have e8 : ty ≠ "DATE" := fun e => hn (by rw [e]; decide)
        have e9 : ty ≠ "INSTRUCTION" := fun e => hn (by rw [e]; decide)
        have f1 : ty ≠ "constructor" := fun e => hp (by rw [e]; decide)
        have f2 : ty ≠ "hasOwnProperty" := fun e => hp (by rw [e]; decide)
        have f3 : ty ≠ "isPrototypeOf" := fun e => hp (by rw [e]; decide)
        have f4 : ty ≠ "propertyIsEnumerable" := fun e => hp (by rw [e]; decide)
        have f5 : ty ≠ "toLocaleString" := fun e => hp (by rw [e]; decide)
        have f6 : ty ≠ "toString" := fun e => hp (by rw [e]; decide)
        have f7 : ty ≠ "valueOf" := fun e => hp (by rw [e]; decide)
        have f8 : ty ≠ "__proto__" := fun e => hp (by rw [e]; decide)
        have f9 : ty ≠ "__defineGetter__" := fun e => hp (by rw [e]; decide)
        have f10 : ty ≠ "__defineSetter__" := fun e => hp (by rw [e]; decide)
        have f11 : ty ≠ "__lookupGetter__" := fun e => hp (by rw [e]; decide)
        have f12 : ty ≠ "__lookupSetter__" := fun e => hp (by rw [e]; decide)
        unfold fieldLogic protoLookup
        rw [if_neg e1, if_neg e2, if_neg e3, if_neg e4, if_neg e5, if_neg e6,
          if_neg e7, if_neg e8, if_neg e9, if_neg f1, if_neg f2, if_neg f3,
          if_neg f4, if_neg f5, if_neg f6, if_neg f7, if_neg f8, if_neg f9,
          if_neg f10, if_neg f11, if_neg f12]
  · intro p s h1 h2
    unfold descOf
    rw [h2]
    simp [Except.map, h1, jsToString]

/-- Witness for C10 at an unrecognized type with non-empty options. -/
theorem claim_C10_witness :
    descOf pUnknownOpts = Except.ok ("undefined" ++
      (if ("Low • High" : String) ≠ ""
       then " Available Options: • " ++ "Low • High" else "")) :=
  claim_C10.2.1 pUnknownOpts "Low • High" rfl rfl

end WFC
